import Mathlib

/-!
Verification of the Coda_Lite dashboard bootstrap
(`src/dashboard/src-tauri/src/lib.rs`, function `run`).

The bootstrap constructs a default Tauri builder, registers a setup
callback (conditionally attaching a logging plugin in debug builds and
emitting two informational log records), and enters the framework run
loop, terminating fatally on a run-loop error.

The embedding makes the compile-time build metadata (`debug_assertions`,
`CARGO_PKG_VERSION`) an explicit `Build` value, and makes the observable
effects of the setup callback (attached plugins, emitted log records)
an explicit `SetupState`, with `Except`-style error propagation mirroring
the `?` operator of the source.
-/

namespace CodaLite

/-- `log::Level` of an emitted record (the source only uses `log::info!`). -/
inductive Level
  | error
  | warn
  | info
  | debug
  | trace
deriving DecidableEq, Repr

/-- `log::LevelFilter`, the severity filter a logging plugin is built with. -/
inductive LevelFilter
  | off
  | error
  | warn
  | info
  | debug
  | trace
deriving DecidableEq, Repr

/-- One log record as emitted by a `log::info!(...)` call. -/
structure LogRecord where
  level : Level
  message : String
deriving DecidableEq, Repr

/-- The logging plugin as configured by
`tauri_plugin_log::Builder::default().level(...).build()`. -/
structure LogPlugin where
  levelFilter : LevelFilter
deriving DecidableEq, Repr

/-- Compile-time build metadata: the `cfg!(debug_assertions)` flag and the
`env!("CARGO_PKG_VERSION")` string, both fixed when the binary is built. -/
structure Build where
  debug_assertions : Bool
  cargo_pkg_version : String
deriving DecidableEq, Repr

/-- The observable state accumulated by the setup callback: the logging
plugins attached to the app handle and the log records emitted, in order. -/
structure SetupState where
  plugins : List LogPlugin
  logs : List LogRecord
deriving DecidableEq, Repr

/-- `tauri_plugin_log::Builder::default().level(log::LevelFilter::Info).build()`:
the one plugin the bootstrap ever attaches. -/
def logPluginInfo : LogPlugin := { levelFilter := LevelFilter.info }

/-- `log::info!("Coda Dashboard starting up")`. -/
def logStartingUp : LogRecord :=
  { level := Level.info, message := "Coda Dashboard starting up" }

/-- `log::info!("Version: {}", env!("CARGO_PKG_VERSION"))`. -/
def logVersion (b : Build) : LogRecord :=
  { level := Level.info, message := "Version: " ++ b.cargo_pkg_version }

/-- The `if cfg!(debug_assertions) { app.handle().plugin(...)? }` block.
`attach` is the outcome of the framework's `plugin` call (an external
effect): in a debug build its error is propagated by `?`; in a release
build the block is skipped entirely. -/
def attachStep (b : Build) (attach : Except String Unit) :
    SetupState × Except String Unit :=
  let st0 : SetupState := { plugins := [], logs := [] }
  if b.debug_assertions then
    match attach with
    | Except.ok _ =>
        ({ st0 with plugins := st0.plugins ++ [logPluginInfo] }, Except.ok ())
    | Except.error e => (st0, Except.error e)
  else
    (st0, Except.ok ())

/-- The two unconditional `log::info!` calls after the plugin block. -/
def emitLogs (b : Build) (st : SetupState) : SetupState :=
  let st2 := { st with logs := st.logs ++ [logStartingUp] }
  { st2 with logs := st2.logs ++ [logVersion b] }

/-- The setup callback `|app| { ... Ok(()) }`: attach the plugin in debug
builds (propagating failure via `?`), then emit the two startup records and
return `Ok(())`. The first component is the observable state at the moment
the callback returns. -/
def setup (b : Build) (attach : Except String Unit) :
    SetupState × Except String Unit :=
  match attachStep b attach with
  | (st, Except.error e) => (st, Except.error e)
  | (st1, Except.ok _) => (emitLogs b st1, Except.ok ())

/-- Outcome of the framework's blocking run loop, once entered. -/
inductive RunLoopResult
  | success
  | failure (err : String)
deriving DecidableEq, Repr

/-- `tauri::Builder::run(...)`: a setup-callback error surfaces as `Err`
without the run loop being entered; otherwise the run loop runs and its
outcome is returned. -/
def builderRun (b : Build) (attach : Except String Unit)
    (loop : RunLoopResult) : Except String Unit :=
  match (setup b attach).2 with
  | Except.error e => Except.error e
  | Except.ok _ =>
      match loop with
      | RunLoopResult.success => Except.ok ()
      | RunLoopResult.failure e => Except.error e

/-- How the process ends: a normal return from `run`, or the fatal
abnormal termination produced by `.expect(...)` on an `Err`. -/
inductive ProcessOutcome
  | exitNormal
  | fatal (msg : String)
deriving DecidableEq, Repr

/-- The fixed diagnostic passed to `.expect(...)`. -/
def fatalMessage : String := "error while running tauri application"

/-- The complete observable behaviour of one activation of `run`. -/
structure AppRun where
  setupState : SetupState
  setupResult : Except String Unit
  runLoopEntered : Bool
  outcome : ProcessOutcome

/-- `pub fn run()`: build the app with the setup callback, call
`.run(tauri::generate_context!())` and `.expect("error while running tauri
application")`. A setup error prevents the run loop from being entered and
makes `builderRun` return `Err`, which `.expect` turns into the fatal
termination; a run-loop failure does the same after the loop was entered. -/
def run (b : Build) (attach : Except String Unit) (loop : RunLoopResult) :
    AppRun :=
  match setup b attach with
  | (st, Except.error e) =>
      { setupState := st
        setupResult := Except.error e
        runLoopEntered := false
        outcome := ProcessOutcome.fatal fatalMessage }
  | (st, Except.ok _) =>
      match loop with
      | RunLoopResult.success =>
          { setupState := st
            setupResult := Except.ok ()
            runLoopEntered := true
            outcome := ProcessOutcome.exitNormal }
      | RunLoopResult.failure _ =>
          { setupState := st
            setupResult := Except.ok ()
            runLoopEntered := true
            outcome := ProcessOutcome.fatal fatalMessage }

/-- The commands registered on the builder. The
`.invoke_handler(tauri::generate_handler![...])` call is absent (left as a
comment in the source), so the set is empty. -/
def registeredCommands : List String := []

/-- Result of a frontend invocation attempt. -/
inductive InvokeResult
  | handled (name : String)
  | unknownCommand (name : String)
deriving DecidableEq, Repr

/-- The framework's invoke dispatch over the registered-command set: an
invocation is handled iff its command name is registered, and otherwise
fails with an unknown-command error. -/
def dispatch (cmds : List String) (name : String) : InvokeResult :=
  if name ∈ cmds then InvokeResult.handled name
  else InvokeResult.unknownCommand name

/-- The bootstrap's states as the spec describes them. -/
inductive BootState
  | initializing
  | running
  | crashed
deriving DecidableEq, Repr

/-- The sequence of bootstrap states visited by one activation of `run`:
always starts `initializing`; `running` is visited iff the run loop is
entered; `crashed` is appended iff the activation ends in the fatal
termination. -/
def stateTrace (b : Build) (attach : Except String Unit)
    (loop : RunLoopResult) : List BootState :=
  let r := run b attach loop
  [BootState.initializing]
    ++ (if r.runLoopEntered then [BootState.running] else [])
    ++ (match r.outcome with
        | ProcessOutcome.fatal _ => [BootState.crashed]
        | ProcessOutcome.exitNormal => [])

/-- A sample debug build and release build, used by the witnesses. -/
def dbgBuild : Build := { debug_assertions := true, cargo_pkg_version := "0.1.0" }

/-- A sample release build, used by the witnesses. -/
def relBuild : Build := { debug_assertions := false, cargo_pkg_version := "0.1.0" }

/-- Helper: every successful setup invocation emits exactly the two
startup records, in order. -/
theorem setup_ok_logs (b : Build) (attach : Except String Unit)
    (h : (setup b attach).2 = Except.ok ()) :
    (setup b attach).1.logs = [logStartingUp, logVersion b] := by
  cases hb : b.debug_assertions <;> cases attach <;>
    simp [setup, attachStep, emitLogs, hb] at h ⊢

/-- C1: in a debug build, a setup invocation that completes successfully
attaches exactly one logging plugin, configured with level filter `Info`;
in a release build, zero logging plugins are attached. -/
theorem C1_logging_plugins (b : Build) (attach : Except String Unit) :
    (b.debug_assertions = true → (setup b attach).2 = Except.ok () →
      (setup b attach).1.plugins = [logPluginInfo])
    ∧ (b.debug_assertions = false → (setup b attach).1.plugins = [])
    ∧ logPluginInfo.levelFilter = LevelFilter.info := by
  refine ⟨?_, ?_, rfl⟩ <;> intro hb
  · intro _
    cases attach with
    | ok u => simp [setup, attachStep, emitLogs, hb]
    | error e => simp [setup, attachStep, hb] at *
  · cases attach <;> simp [setup, attachStep, emitLogs, hb]

/-- Witness for C1 at concrete builds. -/
theorem C1_logging_plugins_witness :
    (setup dbgBuild (Except.ok ())).1.plugins = [logPluginInfo]
    ∧ (setup relBuild (Except.ok ())).1.plugins = [] :=
  ⟨(C1_logging_plugins dbgBuild (Except.ok ())).1 rfl rfl,
   (C1_logging_plugins relBuild (Except.ok ())).2.1 rfl⟩

/-- C2: every successful setup invocation, in either build mode, emits
exactly two informational records, in order: first the fixed text
"Coda Dashboard starting up", then a record containing the build version
string. -/
theorem C2_startup_logs (b : Build) (attach : Except String Unit)
    (h : (setup b attach).2 = Except.ok ()) :
    (setup b attach).1.logs = [logStartingUp, logVersion b]
    ∧ logStartingUp.message = "Coda Dashboard starting up"
    ∧ logStartingUp.level = Level.info
    ∧ (logVersion b).level = Level.info
    ∧ ∃ pre, (logVersion b).message = pre ++ b.cargo_pkg_version :=
  ⟨setup_ok_logs b attach h, rfl, rfl, rfl, "Version: ", rfl⟩

/-- Witness for C2 at a concrete build. -/
theorem C2_startup_logs_witness :
    (setup dbgBuild (Except.ok ())).1.logs = [logStartingUp, logVersion dbgBuild] :=
  (C2_startup_logs dbgBuild (Except.ok ()) rfl).1

/-- C3: if plugin attachment fails during setup, the callback returns that
error and the run loop is never entered. -/
theorem C3_attach_failure_no_run_loop (b : Build) (e : String)
    (loop : RunLoopResult) (hdbg : b.debug_assertions = true) :
    (setup b (Except.error e)).2 = Except.error e
    ∧ (run b (Except.error e) loop).runLoopEntered = false := by
  constructor
  · simp [setup, attachStep, hdbg]
  · simp [run, setup, attachStep, hdbg]

/-- Witness for C3 at a concrete build and forced attachment error. -/
theorem C3_attach_failure_witness :
    (setup dbgBuild (Except.error "forced")).2 = Except.error "forced"
    ∧ (run dbgBuild (Except.error "forced") RunLoopResult.success).runLoopEntered
        = false :=
  C3_attach_failure_no_run_loop dbgBuild "forced" RunLoopResult.success rfl

/-- C4: if the run loop exits with an error, the process terminates
abnormally with the fixed diagnostic "error while running tauri
application", and `run` does not return normally. -/
theorem C4_run_loop_error_fatal (b : Build) (attach : Except String Unit)
    (e : String) (hsetup : (setup b attach).2 = Except.ok ()) :
    (run b attach (RunLoopResult.failure e)).runLoopEntered = true
    ∧ (run b attach (RunLoopResult.failure e)).outcome
        = ProcessOutcome.fatal fatalMessage
    ∧ (run b attach (RunLoopResult.failure e)).outcome
        ≠ ProcessOutcome.exitNormal
    ∧ fatalMessage = "error while running tauri application" := by
  cases hb : b.debug_assertions <;> cases attach <;>
    simp [setup, attachStep, emitLogs, hb] at hsetup ⊢ <;>
    simp [run, setup, attachStep, emitLogs, hb, fatalMessage]

/-- Witness for C4 at a concrete build and run-loop error. -/
theorem C4_run_loop_error_witness :
    (run relBuild (Except.ok ()) (RunLoopResult.failure "window creation failed")).outcome
      = ProcessOutcome.fatal fatalMessage :=
  (C4_run_loop_error_fatal relBuild (Except.ok ()) "window creation failed" rfl).2.1

/-- C5: if plugin attachment fails, setup aborts immediately: the error is
propagated before either informational record is emitted, and no partial
state (no plugin, no log record) is retained. -/
theorem C5_setup_atomic_on_attach_failure (b : Build) (e : String)
    (hdbg : b.debug_assertions = true) :
    (setup b (Except.error e)).2 = Except.error e
    ∧ (setup b (Except.error e)).1.logs = []
    ∧ (setup b (Except.error e)).1.plugins = [] := by
  refine ⟨?_, ?_, ?_⟩ <;> simp [setup, attachStep, hdbg]

/-- Witness for C5 at a concrete build and forced attachment error. -/
theorem C5_setup_atomic_witness :
    (setup dbgBuild (Except.error "forced")).1.logs = []
    ∧ (setup dbgBuild (Except.error "forced")).1.plugins = [] :=
  ⟨(C5_setup_atomic_on_attach_failure dbgBuild "forced" rfl).2.1,
   (C5_setup_atomic_on_attach_failure dbgBuild "forced" rfl).2.2⟩

/-- C6: setup has exactly two outcomes, with plugin attachment its only
failure point: either setup returns `Ok`, or (in a debug build) the plugin
attachment failed and setup returns exactly that error. Moreover the run
loop is the only other failure point of startup and no error is recovered
from: the whole activation ends normally iff setup succeeded and the run
loop succeeded, and otherwise ends in the fatal termination. -/
theorem C6_two_failure_points (b : Build) (attach : Except String Unit)
    (loop : RunLoopResult) :
    ((setup b attach).2 = Except.ok ()
      ∨ ∃ e, b.debug_assertions = true ∧ attach = Except.error e
          ∧ (setup b attach).2 = Except.error e)
    ∧ ((run b attach loop).outcome = ProcessOutcome.exitNormal ↔
        (setup b attach).2 = Except.ok () ∧ loop = RunLoopResult.success)
    ∧ ((run b attach loop).outcome = ProcessOutcome.exitNormal
        ∨ (run b attach loop).outcome = ProcessOutcome.fatal fatalMessage) := by
  cases hb : b.debug_assertions <;> cases attach <;> cases loop <;>
    simp [setup, attachStep, emitLogs, run, hb]

/-- C7: the version string logged by the second informational record is a
compile-time constant of the build: for a fixed build, any two successful
setup invocations (under different runtime attachment outcomes) emit
identical log records, and the second record is exactly
`"Version: " ++ cargo_pkg_version`. -/
theorem C7_version_compile_time (b : Build) (a1 a2 : Except String Unit)
    (h1 : (setup b a1).2 = Except.ok ())
    (h2 : (setup b a2).2 = Except.ok ()) :
    (setup b a1).1.logs = (setup b a2).1.logs
    ∧ (setup b a1).1.logs[1]? =
        some { level := Level.info, message := "Version: " ++ b.cargo_pkg_version } := by
  rw [setup_ok_logs b a1 h1, setup_ok_logs b a2 h2]
  exact ⟨rfl, rfl⟩

/-- Witness for C7 at a concrete build and two runtime contexts. -/
theorem C7_version_witness :
    (setup dbgBuild (Except.ok ())).1.logs = (setup dbgBuild (Except.ok ())).1.logs
    ∧ (setup dbgBuild (Except.ok ())).1.logs[1]? =
        some { level := Level.info, message := "Version: " ++ dbgBuild.cargo_pkg_version } :=
  C7_version_compile_time dbgBuild (Except.ok ()) (Except.ok ()) rfl rfl

/-- C8: no invoke handler is registered on the builder, so the registered
command set is empty and every invocation attempt from a frontend fails
with an unknown-command error. -/
theorem C8_no_registered_commands :
    registeredCommands = []
    ∧ ∀ name : String,
        dispatch registeredCommands name = InvokeResult.unknownCommand name := by
  constructor
  · rfl
  · intro name
    simp [dispatch, registeredCommands]

/-- C9 counterexample: `crashed` is not reachable only via run-loop
failure. In a debug build whose plugin attachment fails, the run loop is
never entered (and its would-be outcome is `success`), yet the trace still
ends in `crashed`, because the setup error surfaces as an `Err` from the
builder run call and hits the same `.expect` fatal termination. -/
theorem C9_counterexample :
    BootState.crashed ∈
      stateTrace dbgBuild (Except.error "forced") RunLoopResult.success
    ∧ (run dbgBuild (Except.error "forced") RunLoopResult.success).runLoopEntered
        = false := by
  constructor
  · decide
  · rfl

/-- C9 (amended): the bootstrap's state trace starts in `initializing` and visits it
exactly once (so there is no transition back to it); `crashed` occurs iff
the builder run call returned an error, and when it occurs it is the last
state of the trace; and the activation's terminal condition is either the
normal exit or the fatal termination, so the process exits either way. -/
theorem C9_state_machine (b : Build) (attach : Except String Unit)
    (loop : RunLoopResult) :
    (stateTrace b attach loop).head? = some BootState.initializing
    ∧ (stateTrace b attach loop).count BootState.initializing = 1
    ∧ (BootState.crashed ∈ stateTrace b attach loop ↔
        ∃ e, builderRun b attach loop = Except.error e)
    ∧ (BootState.crashed ∈ stateTrace b attach loop →
        (stateTrace b attach loop).getLast? = some BootState.crashed)
    ∧ ((run b attach loop).outcome = ProcessOutcome.exitNormal
        ∨ (run b attach loop).outcome = ProcessOutcome.fatal fatalMessage) := by
  cases hb : b.debug_assertions <;> cases attach <;> cases loop <;>
    simp [stateTrace, run, setup, attachStep, emitLogs, builderRun, hb,
      List.count_cons, List.head?, List.getLast?]

/-- Witness for C9 at a concrete build whose run loop fails. -/
theorem C9_state_machine_witness :
    (stateTrace dbgBuild (Except.ok ()) (RunLoopResult.failure "boom")).getLast?
      = some BootState.crashed :=
  (C9_state_machine dbgBuild (Except.ok ()) (RunLoopResult.failure "boom")).2.2.2.1
    (by decide)

/-- C10: in a release build the setup callback is infallible: every
invocation returns `Ok` (whatever the would-be attachment outcome, since
the plugin branch is compiled out), emits the two informational records,
and attaches no plugin. -/
theorem C10_release_setup_infallible (b : Build) (attach : Except String Unit)
    (hrel : b.debug_assertions = false) :
    (setup b attach).2 = Except.ok ()
    ∧ (setup b attach).1.logs = [logStartingUp, logVersion b]
    ∧ (setup b attach).1.plugins = [] := by
  refine ⟨?_, ?_, ?_⟩ <;> cases attach <;>
    simp [setup, attachStep, emitLogs, hrel]

/-- Witness for C10 at a concrete release build, with an attachment outcome
that would be an error if the branch were live. -/
theorem C10_release_witness :
    (setup relBuild (Except.error "would-be failure")).2 = Except.ok ()
    ∧ (setup relBuild (Except.error "would-be failure")).1.logs
        = [logStartingUp, logVersion relBuild]
    ∧ (setup relBuild (Except.error "would-be failure")).1.plugins = [] :=
  C10_release_setup_infallible relBuild (Except.error "would-be failure") rfl

end CodaLite
